import Mathlib

/- Shallow embedding of the Healthcare AR Training backend
   (src/backend/main.py).

   Modelling choices:
   - Python floats are modelled as rationals (ℚ), Python ints as ℤ
     (lengths as ℕ where the value is a length by construction).
   - The process-wide YOLO model handle (`model`, line 50) is modelled as
     an Option wrapping an abstract model interface: a class-vocabulary
     map `names` and an inference function `infer` returning, per result
     object, a list of raw boxes (mirroring the nested
     `for r in results: for box in r.boxes` loops).
   - `cv2.imdecode` is external; its outcome is passed in as
     `decoded : Option Img` (none models a buffer that fails to decode,
     which is what cv2 returns for an empty or corrupt buffer).
   - Wall-clock reads `time.time()` at entry and before response assembly
     are passed in as `startTime endTime : ℚ` (seconds).
   - `raise HTTPException(...)` inside the `try` block of detect_objects
     is a Python exception caught by the blanket `except Exception as e`
     handler, which re-raises HTTPException(500, str(e)); the embedding
     keeps the try-body as an Except over a Python-exception type and
     applies the handler on top, exactly as the control flow runs. -/

namespace HealthcareAR

/-- One raw box emitted by the model: class id (`box.cls[0]`), confidence
(`box.conf[0]`) and xyxy coordinates (`box.xyxy[0].tolist()`). -/
structure RawBox where
  cls : ℕ
  conf : ℚ
  xyxy : List ℚ
  deriving DecidableEq, Repr

/-- Abstract interface of a loaded YOLO model: `names` is the class
vocabulary (`model.names[class_id]`), `infer` is `model(img, conf=0.5)`
returning the nested results/boxes lists. -/
structure Model (Img : Type) where
  names : ℕ → String
  infer : Img → List (List RawBox)

/-- Pydantic model Detection (main.py lines 69-72). -/
structure Detection where
  class_name : String
  confidence : ℚ
  bbox : List ℚ
  deriving DecidableEq, Repr

/-- Pydantic model DetectionResponse (main.py lines 75-78). -/
structure DetectionResponse where
  detections : List Detection
  count : ℕ
  processing_time_ms : ℚ
  deriving DecidableEq, Repr

/-- Pydantic model AICoachRequest (main.py lines 81-85). -/
structure AICoachRequest where
  current_step : String
  duration : ℚ
  motion_type : String
  previous_attempts : ℤ

/-- Response body of /ai-coach (main.py lines 191-195). -/
structure AICoachResponse where
  feedback : String
  source : String
  step : String
  deriving DecidableEq

/-- Free-form Python dict values are not inspected anywhere in the code;
a dict is modelled as a string-keyed association list. -/
abbrev PyDict := List (String × String)

/-- Pydantic model SessionRequest (main.py lines 88-98). -/
structure SessionRequest where
  session_id : String
  user_id : String
  task : String
  start_time : String
  end_time : String
  duration : ℤ
  steps : List PyDict
  score : ℤ
  metrics : PyDict
  feedback : List PyDict

/-- Response body of /sessions (main.py lines 219-223). -/
structure SaveSessionResponse where
  status : String
  session_id : String
  message : String
  deriving DecidableEq

/-- Response body of /analytics (main.py lines 229-233). -/
structure AnalyticsResponse where
  total_sessions : ℕ
  average_score : ℕ
  message : String
  deriving DecidableEq

/-- Response body of / (main.py lines 104-110). -/
structure RootResponse where
  status : String
  service : String
  version : String
  model_loaded : Bool
  endpoints : List String
  deriving DecidableEq

/-- Response body of /health (main.py lines 116-120). -/
structure HealthResponse where
  status : String
  model_loaded : Bool
  model_type : Option String
  deriving DecidableEq

/-- HTTP error response as produced by HTTPException: a status code and a
detail message. -/
structure HttpError where
  status : ℕ
  detail : String
  deriving DecidableEq, Repr

/-- Python exception raised inside the try block of detect_objects; the
only raise in the body is an HTTPException. -/
inductive PyExn where
  | httpExn (status : ℕ) (detail : String)
  deriving DecidableEq, Repr

/-- Python str(e) for a starlette HTTPException:
"{status_code}: {detail}". -/
def strOfExn : PyExn → String
  | .httpExn status detail => toString status ++ ": " ++ detail

/-- Does the char list `hay` start with `needle`? (building block of the
Python substring test `obj in s`). -/
def listStarts : List Char → List Char → Bool
  | [], _ => true
  | _ :: _, [] => false
  | a :: as, b :: bs => a == b && listStarts as bs

/-- Python substring containment on char lists: `needle` occurs
contiguously inside `hay`. -/
def subIn (needle : List Char) : List Char → Bool
  | [] => listStarts needle []
  | c :: t => listStarts needle (c :: t) || subIn needle t

/-- Python `needle in hay` on strings. -/
def strIn (needle hay : String) : Bool := subIn needle.data hay.data

/-- Python str.lower() (the class names involved are ASCII). -/
def pyLower (s : String) : String := ⟨s.data.map Char.toLower⟩

/-- The allow-list of main.py line 157. -/
def relevantClasses : List String := ["bottle", "cup", "person", "hand", "book"]

/-- Class filter of main.py lines 156-157:
`any(obj in class_name.lower() for obj in [...])`. -/
def classFilter (class_name : String) : Bool :=
  relevantClasses.any fun obj => strIn obj (pyLower class_name)

/-- Assembly of one Detection record from one raw box (main.py
lines 158-162), with the class id resolved through the vocabulary. -/
def mkDetection (names : ℕ → String) (box : RawBox) : Detection :=
  { class_name := names box.cls, confidence := box.conf, bbox := box.xyxy }

/-- Extraction loop of main.py lines 146-162: iterate over results, then
over each result's boxes, appending a Detection when the class filter
retains the resolved class name. -/
def extractDetections (names : ℕ → String) (results : List (List RawBox)) :
    List Detection :=
  results.flatten.filterMap fun box =>
    if classFilter (names box.cls) then
      some { class_name := names box.cls, confidence := box.conf, bbox := box.xyxy }
    else
      none

/-- The try block of detect_objects (main.py lines 133-172), given the
decode outcome and the two wall-clock readings. -/
def detectTryBody {Img : Type} (model : Model Img) (decoded : Option Img)
    (startTime endTime : ℚ) : Except PyExn DetectionResponse :=
  match decoded with
  | none => .error (.httpExn 400 "Invalid image")
  | some img =>
    let detections := extractDetections model.names (model.infer img)
    let processing_time := (endTime - startTime) * 1000
    .ok { detections := detections
          count := detections.length
          processing_time_ms := processing_time }

/-- Endpoint POST /detect (main.py lines 123-176): the model-absence
check runs before the try block; any exception escaping the try body is
converted by the blanket handler into HTTPException(500, str(e)). -/
def detect_objects {Img : Type} (m : Option (Model Img)) (decoded : Option Img)
    (startTime endTime : ℚ) : Except HttpError DetectionResponse :=
  match m with
  | none => .error { status := 503, detail := "YOLO model not loaded" }
  | some model =>
    match detectTryBody model decoded startTime endTime with
    | .ok resp => .ok resp
    | .error e => .error { status := 500, detail := strOfExn e }

/-- Endpoint GET / (main.py lines 101-110). -/
def root {Img : Type} (m : Option (Model Img)) : RootResponse :=
  { status := "healthy"
    service := "Healthcare AR Training API"
    version := "1.0.0"
    model_loaded := m.isSome
    endpoints := ["/detect", "/ai-coach", "/sessions", "/health"] }

/-- Endpoint GET /health (main.py lines 113-120). -/
def health_check {Img : Type} (m : Option (Model Img)) : HealthResponse :=
  { status := "healthy"
    model_loaded := m.isSome
    model_type := if m.isSome then some "YOLOv8n" else none }

/-- Python dict.get(key, default) on a literal string-keyed dict. -/
def dictGet (table : List (String × String)) (key dflt : String) : String :=
  match table with
  | [] => dflt
  | (k, v) :: rest => if key = k then v else dictGet rest key dflt

/-- The feedback_map dict of main.py lines 201-209. -/
def feedback_map : List (String × String) :=
  [("hands_visible", "Great! Keep your hands clearly visible."),
   ("wetting_motion", "Good wetting motion! Cover all surfaces."),
   ("soap_application", "Excellent circular rubbing motion!"),
   ("interlace_fingers", "Nice! Make sure fingers are fully interlaced."),
   ("back_of_hands", "Good job! Don\x27t forget both backs."),
   ("thumbs", "Great thumb cleaning! Rotate them well."),
   ("rinse_motion", "Excellent rinsing technique!")]

/-- generate_feedback (main.py lines 198-211):
`feedback_map.get(step, "Keep up the good work!")`. -/
def generate_feedback (step : String) (duration : ℚ) (motion_type : String)
    (attempts : ℤ) : String :=
  dictGet feedback_map step "Keep up the good work!"

/-- The pure lookup that generate_feedback computes: keyed on the step
string alone. -/
def lookupStep (step : String) : String :=
  dictGet feedback_map step "Keep up the good work!"

/-- Endpoint POST /ai-coach (main.py lines 179-195). -/
def ai_coach (request : AICoachRequest) : AICoachResponse :=
  { feedback := generate_feedback request.current_step request.duration
      request.motion_type request.previous_attempts
    source := "rule_based"
    step := request.current_step }

/-- Endpoint POST /sessions (main.py lines 214-223): logs and
acknowledges; nothing is stored. -/
def save_session (session : SessionRequest) : SaveSessionResponse :=
  { status := "success"
    session_id := session.session_id
    message := "Session saved" }

/-- Endpoint GET /analytics (main.py lines 226-233): a constant body. -/
def get_analytics : AnalyticsResponse :=
  { total_sessions := 0
    average_score := 0
    message := "Analytics endpoint" }

/-- The only module-level state of main.py is the model handle; there is
no session store. -/
structure ServerState (Img : Type) where
  model : Option (Model Img)

/-- save_session as a state transition: it returns its acknowledgment and
leaves the server state unchanged (the handler only logs). -/
def save_sessionSt {Img : Type} (st : ServerState Img)
    (session : SessionRequest) : ServerState Img × SaveSessionResponse :=
  (st, save_session session)

/-- State after a sequence of /sessions requests. -/
def runSessions {Img : Type} (st : ServerState Img)
    (sessions : List SessionRequest) : ServerState Img :=
  sessions.foldl (fun s req => (save_sessionSt s req).1) st

/-- Endpoint GET /analytics against the server state: the handler reads
no state. -/
def get_analyticsSt {Img : Type} (st : ServerState Img) : AnalyticsResponse :=
  get_analytics

/-- A concrete model instance used for witnesses: every class id resolves
to "bottle" and inference returns no boxes. -/
def mdl0 : Model ℕ :=
  { names := fun _ => "bottle", infer := fun _ => [] }

/-- The response mdl0 produces for a decodable image with clock readings
0 and 1 seconds. -/
def resp0 : DetectionResponse :=
  { detections := [], count := 0, processing_time_ms := 1000 }

/-- Characterization of listStarts: it decides the prefix relation. -/
theorem listStarts_iff (n h : List Char) : listStarts n h = true ↔ n <+: h := by
  induction n generalizing h with
  | nil => simp [listStarts]
  | cons a as ih =>
    cases h with
    | nil => simp [listStarts]
    | cons b bs => simp [listStarts, List.cons_prefix_cons, ih, And.comm]

/-- Characterization of subIn: it decides contiguous containment. -/
theorem subIn_iff (n h : List Char) : subIn n h = true ↔ n <:+: h := by
  induction h with
  | nil => simp [subIn, listStarts_iff]
  | cons c t ih => simp [subIn, listStarts_iff, ih, List.infix_cons_iff]

/-- The filterMap over raw boxes is the filter of the assembled records:
one Detection per retained raw box, in place. -/
theorem filterMap_boxes_eq (names : ℕ → String) (l : List RawBox) :
    (l.filterMap fun box =>
        if classFilter (names box.cls) then
          some { class_name := names box.cls, confidence := box.conf, bbox := box.xyxy }
        else none) =
      (l.map (mkDetection names)).filter fun d => classFilter d.class_name := by
  induction l with
  | nil => rfl
  | cons b t ih =>
    simp only [List.filterMap_cons, List.map_cons, List.filter_cons]
    cases hc : classFilter (names b.cls) with
    | false => simpa [mkDetection, hc] using ih
    | true => simpa [mkDetection, hc] using ih

/-- C1: the spec asks for a 400-equivalent InvalidImage failure on an
undecodable upload with the model loaded; the code raises
HTTPException(400, "Invalid image") inside the try block, the blanket
`except Exception` handler catches it and re-raises
HTTPException(500, str(e)), so the client actually receives status 500
with detail "400: Invalid image" (never a 200 and never a partial list,
but a 500 rather than the claimed 400). -/
theorem c1_undecodable_image_returns_500_not_400 :
    detect_objects (some mdl0) (none : Option ℕ) 0 0 =
      Except.error { status := 500, detail := "400: Invalid image" } ∧
    ∀ (Img : Type) (model : Model Img) (t1 t2 : ℚ),
      detect_objects (some model) (none : Option Img) t1 t2 =
        Except.error { status := 500, detail := "400: Invalid image" } := by
  refine ⟨?_, fun Img model t1 t2 => ?_⟩ <;> rfl

/-- C2: with the model handle absent, every /detect call fails with the
503 ModelUnavailable error, independent of the decode outcome and the
clock readings, while /health still succeeds with status "healthy" and
model_loaded false. -/
theorem c2_model_absent_fails_fast_with_503 :
    (∀ (Img : Type) (decoded : Option Img) (t1 t2 : ℚ),
        detect_objects (none : Option (Model Img)) decoded t1 t2 =
          Except.error { status := 503, detail := "YOLO model not loaded" }) ∧
    (∀ (Img : Type), health_check (none : Option (Model Img)) =
        { status := "healthy", model_loaded := false, model_type := none }) :=
  ⟨fun _ _ _ _ => rfl, fun _ => rfl⟩

/-- C3: the class filter retains a raw detection exactly when the
lowercased class name contains one of the five allow-list substrings;
"bottle" is retained, "car" is excluded, "handbag" is retained via
"hand". -/
theorem c3_class_filter_is_substring_containment :
    (∀ class_name : String,
        classFilter class_name = true ↔
          ∃ obj ∈ relevantClasses, obj.data <:+: (pyLower class_name).data) ∧
    classFilter "bottle" = true ∧
    classFilter "car" = false ∧
    classFilter "handbag" = true := by
  refine ⟨fun class_name => ?_, by decide, by decide, by decide⟩
  simp [classFilter, strIn, List.any_eq_true, subIn_iff]

/-- C4: generate_feedback is a pure total function: each of the seven
step identifiers maps to its documented sentence for every value of the
unused duration/motion/attempts arguments, and every other step string
maps to the fallback "Keep up the good work!". -/
theorem c4_generate_feedback_total_lookup :
    (∀ (d : ℚ) (m : String) (a : ℤ),
        generate_feedback "hands_visible" d m a = "Great! Keep your hands clearly visible." ∧
        generate_feedback "wetting_motion" d m a = "Good wetting motion! Cover all surfaces." ∧
        generate_feedback "soap_application" d m a = "Excellent circular rubbing motion!" ∧
        generate_feedback "interlace_fingers" d m a = "Nice! Make sure fingers are fully interlaced." ∧
        generate_feedback "back_of_hands" d m a = "Good job! Don\x27t forget both backs." ∧
        generate_feedback "thumbs" d m a = "Great thumb cleaning! Rotate them well." ∧
        generate_feedback "rinse_motion" d m a = "Excellent rinsing technique!") ∧
    (∀ (step : String) (d : ℚ) (m : String) (a : ℤ),
        step ∉ ["hands_visible", "wetting_motion", "soap_application",
                "interlace_fingers", "back_of_hands", "thumbs", "rinse_motion"] →
        generate_feedback step d m a = "Keep up the good work!") := by
  constructor
  · intro d m a
    refine ⟨?_, ?_, ?_, ?_, ?_, ?_, ?_⟩ <;> rfl
  · intro step d m a h
    simp only [List.mem_cons, List.not_mem_nil, or_false, not_or] at h
    obtain ⟨h1, h2, h3, h4, h5, h6, h7⟩ := h
    simp [generate_feedback, feedback_map, dictGet, h1, h2, h3, h4, h5, h6, h7]

/-- C4 witness: a concrete unknown step falls through to the fallback. -/
theorem c4_generate_feedback_total_lookup_witness :
    ("made_up_step" ∉ ["hands_visible", "wetting_motion", "soap_application",
        "interlace_fingers", "back_of_hands", "thumbs", "rinse_motion"]) ∧
    generate_feedback "made_up_step" 0 "" 0 = "Keep up the good work!" :=
  ⟨by decide, c4_generate_feedback_total_lookup.2 "made_up_step" 0 "" 0 (by decide)⟩

/-- C5: every successful /detect response has count equal to the length
of its detections list, and a nonnegative processing_time_ms provided
the second wall-clock reading is not earlier than the first. -/
theorem c5_detection_response_invariants (Img : Type) (m : Option (Model Img))
    (decoded : Option Img) (t1 t2 : ℚ) (resp : DetectionResponse)
    (hclock : t1 ≤ t2)
    (hok : detect_objects m decoded t1 t2 = Except.ok resp) :
    resp.count = resp.detections.length ∧ 0 ≤ resp.processing_time_ms := by
  cases m with
  | none => simp [detect_objects] at hok
  | some model =>
    cases decoded with
    | none => simp [detect_objects, detectTryBody] at hok
    | some img =>
      have hred : detect_objects (some model) (some img) t1 t2 =
          Except.ok
            { detections := extractDetections model.names (model.infer img)
              count := (extractDetections model.names (model.infer img)).length
              processing_time_ms := (t2 - t1) * 1000 } := rfl
      rw [hred] at hok
      injection hok with h
      subst h
      refine ⟨rfl, ?_⟩
      exact mul_nonneg (sub_nonneg.mpr hclock) (by norm_num)

/-- C5 witness: a concrete successful run with the model loaded, a
decodable image, no boxes emitted, and clock readings 0 and 1. -/
theorem c5_detection_response_invariants_witness :
    resp0.count = resp0.detections.length ∧ 0 ≤ resp0.processing_time_ms :=
  c5_detection_response_invariants ℕ (some mdl0) (some 0) 0 1 resp0
    (by norm_num) (by norm_num [detect_objects, detectTryBody, extractDetections, mdl0, resp0])

/-- C6: /ai-coach returns exactly the rule-based lookup of current_step,
source "rule_based" and the echoed step; the response is a function of
current_step alone, "thumbs" yields the thumbs entry verbatim and an
unknown step yields the fallback. -/
theorem c6_ai_coach_depends_only_on_step :
    (∀ request : AICoachRequest,
        ai_coach request =
          { feedback := lookupStep request.current_step
            source := "rule_based"
            step := request.current_step }) ∧
    (∀ r1 r2 : AICoachRequest, r1.current_step = r2.current_step →
        ai_coach r1 = ai_coach r2) ∧
    ai_coach { current_step := "thumbs", duration := 30, motion_type := "circular",
               previous_attempts := 2 } =
      { feedback := "Great thumb cleaning! Rotate them well.", source := "rule_based",
        step := "thumbs" } ∧
    ai_coach { current_step := "unknown_step_xyz", duration := 5, motion_type := "wiggle",
               previous_attempts := 0 } =
      { feedback := "Keep up the good work!", source := "rule_based",
        step := "unknown_step_xyz" } := by
  refine ⟨fun request => rfl, fun r1 r2 h => ?_, by decide, by decide⟩
  simp [ai_coach, generate_feedback, h]

/-- C6 witness: two requests agreeing on current_step but differing in
duration, motion_type and previous_attempts get the same response. -/
theorem c6_ai_coach_depends_only_on_step_witness :
    ai_coach { current_step := "thumbs", duration := 0, motion_type := "a",
               previous_attempts := 1 } =
      ai_coach { current_step := "thumbs", duration := 99, motion_type := "b",
                 previous_attempts := 5 } :=
  c6_ai_coach_depends_only_on_step.2.1 _ _ rfl

/-- C7: /sessions acknowledges every syntactically valid payload,
echoing the received session_id, with no consistency validation; in
particular a payload with end_time before start_time, a negative score
and empty steps is still accepted. -/
theorem c7_save_session_echoes :
    (∀ session : SessionRequest,
        save_session session =
          { status := "success", session_id := session.session_id,
            message := "Session saved" }) ∧
    save_session
        { session_id := "s-1", user_id := "u", task := "handwash",
          start_time := "2025-01-02T00:00:00", end_time := "2025-01-01T00:00:00",
          duration := -10, steps := [], score := -999, metrics := [], feedback := [] } =
      { status := "success", session_id := "s-1", message := "Session saved" } :=
  ⟨fun _ => rfl, rfl⟩

/-- C8: /analytics returns the constant zero-valued body whatever
sequence of /sessions requests was processed before it, from any server
state. -/
theorem c8_analytics_constant :
    ∀ (Img : Type) (st : ServerState Img) (sessions : List SessionRequest),
      get_analyticsSt (runSessions st sessions) =
        { total_sessions := 0, average_score := 0, message := "Analytics endpoint" } :=
  fun _ _ _ => rfl

/-- C9: the retained detections are exactly the class-filtered
assembled records of the flattened raw boxes, in emission order, and
hence form an order-preserving sublist of the full assembled sequence
(no re-sorting). -/
theorem c9_detections_preserve_emission_order :
    ∀ (names : ℕ → String) (results : List (List RawBox)),
      extractDetections names results =
        (results.flatten.map (mkDetection names)).filter
          (fun d => classFilter d.class_name) ∧
      List.Sublist (extractDetections names results)
        (results.flatten.map (mkDetection names)) := by
  intro names results
  have h := filterMap_boxes_eq names results.flatten
  refine ⟨h, ?_⟩
  have h2 : extractDetections names results =
      (results.flatten.map (mkDetection names)).filter
        (fun d => classFilter d.class_name) := h
  rw [h2]
  exact List.filter_sublist _

/-- C10: / and /health always report status "healthy", /health mirrors
the model handle in model_loaded, and model_type is "YOLOv8n" exactly
when the handle is present and null exactly when it is absent. -/
theorem c10_health_reports :
    ∀ (Img : Type) (m : Option (Model Img)),
      (root m).status = "healthy" ∧
      (health_check m).status = "healthy" ∧
      (health_check m).model_loaded = m.isSome ∧
      ((health_check m).model_type = some "YOLOv8n" ↔ m.isSome = true) ∧
      ((health_check m).model_type = none ↔ m.isSome = false) := by
  intro Img m
  cases m with
  | none => exact ⟨rfl, rfl, rfl, by simp [health_check], by simp [health_check]⟩
  | some model => exact ⟨rfl, rfl, rfl, by simp [health_check], by simp [health_check]⟩

end HealthcareAR
